import Mathlib

/-!
Shallow embedding of the trash-bin telemetry servers of this repository:
the HTTP-only server and the WebSocket server variant (both with the
create-bin and sensor-distance operations), and the standalone sensor-data
server.  JavaScript objects are modelled as partial maps from field names
to JSON-style values, JavaScript truthiness and the or-defaulting idiom
are modelled explicitly, and each handler body becomes a pure function
from the previously persisted record and the incoming (already
destructured) payload to the single store write it performs, if any.
Joi validation is modelled by boolean predicates on the payload types.
The liveness tracker described by the specification has no source file in
the repository, so it is modelled from the specification text; those
definitions are marked as such.
-/

namespace TrashBins

/-- A JSON-style value as persisted in the document store: null, a number
or a string.  Numbers are modelled as integers. -/
inductive JVal where
  | jnull : JVal
  | jnum : Int → JVal
  | jstr : String → JVal
  deriving DecidableEq

/-- A persisted document: a partial map from field names to values.
A field absent from the object is mapped to none. -/
abbrev JRecord := String → Option JVal

/-- JavaScript truthiness of a value: null, the number 0 and the empty
string are falsy, everything else modelled here is truthy. -/
def JVal.truthy : JVal → Bool
  | JVal.jnull => false
  | JVal.jnum n => decide (n ≠ 0)
  | JVal.jstr s => decide (s ≠ "")

/-- The JavaScript defaulting idiom `x || d`: an absent or falsy value is
replaced by the default, a truthy value is kept. -/
def jsOr : Option JVal → JVal → JVal
  | some v, d => if v.truthy then v else d
  | none, d => d

/-- Payload of a distance message, shared by the HTTP POST sensor-distance
endpoint and the WebSocket distance message, as destructured by the
handlers. -/
structure DistanceMsg where
  type : String
  id : Int
  distance : Int
  location : String
  microProcessor_status : String
  sensor_status : String
  binLid_status : String
  deriving DecidableEq

/-- The Joi distanceSchema: the type field must be the literal "distance",
id and distance are arbitrary numbers, and the four string fields must be
non-empty (a required Joi string rejects the empty string by default).
No bound at all is placed on the distance number. -/
def distanceSchemaValid (m : DistanceMsg) : Bool :=
  (m.type == "distance") && (m.location != "") && (m.microProcessor_status != "")
    && (m.sensor_status != "") && (m.binLid_status != "")

/-- The merge built by the distance handlers: object spread of the existing
record, then distance, the three status fields and lastUpdated overwritten
from the incoming message and the formatted clock. -/
def mergeDistance (r : JRecord) (m : DistanceMsg) (now : String) : JRecord :=
  fun k =>
    if k = "distance" then some (JVal.jnum m.distance)
    else if k = "microProcessor_status" then some (JVal.jstr m.microProcessor_status)
    else if k = "sensor_status" then some (JVal.jstr m.sensor_status)
    else if k = "binLid_status" then some (JVal.jstr m.binLid_status)
    else if k = "lastUpdated" then some (JVal.jstr now)
    else r k

/-- Outcome of one handler call: the status it reports (the WebSocket
variant sends an error message where the HTTP variant sends the status
code) and the single store write it performs, if any. -/
structure HandlerResult where
  status : Nat
  write : Option JRecord

/-- The sensor-distance handler and the WebSocket distance handler:
validate, read the existing record at the location and id, answer
not-found without writing when it is absent, otherwise write the merged
record back. -/
def sensorDistance (existing : Option JRecord) (m : DistanceMsg) (now : String) :
    HandlerResult :=
  if distanceSchemaValid m then
    match existing with
    | none => { status := 404, write := none }
    | some r => { status := 200, write := some (mergeDistance r m now) }
  else { status := 400, write := none }

/-- The value of field k in the record written by a handler call, when a
write happened and the field is present in the written record. -/
def writtenField (h : HandlerResult) (k : String) : Option JVal :=
  match h.write with
  | some r => r k
  | none => none

/-- Payload of the create-bin endpoint; geoLocation is optional. -/
structure BinUpdate where
  id : Int
  location : String
  binColor : String
  geoLocation : Option String
  deriving DecidableEq

/-- The Joi binSchema: id a number, location and binColor non-empty
strings, geoLocation optional and allowed to be the empty string. -/
def binSchemaValid (u : BinUpdate) : Bool :=
  (u.location != "") && (u.binColor != "")

/-- The record written by the create-bin endpoint of the HTTP-only server:
the snapshot value is read as an object or defaulted to the empty object,
the telemetry fields are defaulted field by field with the or-idiom,
geoLocation is the payload value or null, and lastUpdated is kept when
present and truthy, otherwise set to the current formatted time. -/
def createBin (existing : Option JRecord) (u : BinUpdate) (now : String) : JRecord :=
  let d : JRecord := fun k =>
    match existing with
    | some r => r k
    | none => none
  fun k =>
    if k = "_id" then some (JVal.jnum u.id)
    else if k = "location" then some (JVal.jstr u.location)
    else if k = "binColor" then some (JVal.jstr u.binColor)
    else if k = "geoLocation" then some (jsOr (Option.map JVal.jstr u.geoLocation) JVal.jnull)
    else if k = "distance" then some (jsOr (d "distance") (JVal.jnum 0))
    else if k = "microProcessor_status" then some (jsOr (d "microProcessor_status") (JVal.jstr "OFF"))
    else if k = "sensor_status" then some (jsOr (d "sensor_status") (JVal.jstr "OFF"))
    else if k = "binLid_status" then some (jsOr (d "binLid_status") (JVal.jstr "CLOSE"))
    else if k = "lastUpdated" then some (jsOr (d "lastUpdated") (JVal.jstr now))
    else none

/-- The record written by the create-bin endpoint of the WebSocket server
variant: a ternary on the existence of the previous snapshot instead of
field-level or-defaulting, so field values of an existing record are
carried verbatim; lastUpdated is kept when the record exists and the field
is truthy. -/
def createBinWs (existing : Option JRecord) (u : BinUpdate) (now : String) : JRecord :=
  fun k =>
    if k = "_id" then some (JVal.jnum u.id)
    else if k = "location" then some (JVal.jstr u.location)
    else if k = "binColor" then some (JVal.jstr u.binColor)
    else if k = "geoLocation" then some (jsOr (Option.map JVal.jstr u.geoLocation) JVal.jnull)
    else if k = "distance" then
      (match existing with | some r => r "distance" | none => some (JVal.jnum 0))
    else if k = "microProcessor_status" then
      (match existing with | some r => r "microProcessor_status" | none => some (JVal.jstr "OFF"))
    else if k = "sensor_status" then
      (match existing with | some r => r "sensor_status" | none => some (JVal.jstr "OFF"))
    else if k = "binLid_status" then
      (match existing with | some r => r "binLid_status" | none => some (JVal.jstr "CLOSE"))
    else if k = "lastUpdated" then
      some (match existing with
        | some r => jsOr (r "lastUpdated") (JVal.jstr now)
        | none => JVal.jstr now)
    else none

/-- The sensor-data endpoint of the standalone sensor server: any value
whose type is number is accepted, and the record at Gym/Bin-1 is
overwritten with only an _id of 1 and the distance. -/
def sensorData (distance : Option JVal) : HandlerResult :=
  match distance with
  | some (JVal.jnum n) =>
      { status := 200,
        write := some (fun k =>
          if k = "_id" then some (JVal.jnum 1)
          else if k = "distance" then some (JVal.jnum n)
          else none) }
  | _ => { status := 400, write := none }

/-- Modelled from the spec: the liveness tracker component has no source
file in the repository.  One in-memory entry per device key, holding the
last sighting instant of each channel and the online flag. -/
structure LivenessEntry where
  lastHeartbeatAt : Nat
  lastTelemetryAt : Nat
  isOnline : Bool
  deriving DecidableEq

/-- Modelled from the spec: the default offline threshold, 20 seconds. -/
def offlineThreshold : Nat := 20

/-- Modelled from the spec: the default cleanup interval, 3600 seconds. -/
def cleanupInterval : Nat := 3600

/-- Modelled from the spec: the merge-patch the offline sweep sends to the
persisted record of a device that just went offline. -/
structure OfflinePatch where
  microProcessor_status : String
  sensor_status : String
  lastUpdated : Nat
  deriving DecidableEq

/-- Modelled from the spec: the offline sweep evaluated on one tracked
device.  When the device is online and the gap since the most recent
sighting on either channel exceeds the threshold, it is marked offline and
exactly one patch with both statuses OFF is issued; otherwise the entry is
left unchanged and nothing is issued. -/
def sweepEntry (e : LivenessEntry) (now : Nat) : LivenessEntry × List OfflinePatch :=
  if e.isOnline && decide (now - max e.lastHeartbeatAt e.lastTelemetryAt > offlineThreshold) then
    ({ e with isOnline := false },
      [{ microProcessor_status := "OFF", sensor_status := "OFF", lastUpdated := now }])
  else (e, [])

/-- Modelled from the spec: the cleanup sweep removes every tracker entry
whose most recent sighting on either channel is older than the cleanup
interval, regardless of its online flag, and performs no store write. -/
def cleanupSweep (tracker : List (String × LivenessEntry)) (now : Nat) :
    List (String × LivenessEntry) × List OfflinePatch :=
  (tracker.filter
      (fun p => decide (now - max p.2.lastHeartbeatAt p.2.lastTelemetryAt ≤ cleanupInterval)),
    [])

/-- A sample persisted record, as left by a registration followed by a
telemetry update; used to instantiate theorems at concrete inputs. -/
def gymBin : JRecord := fun k =>
  if k = "_id" then some (JVal.jnum 1)
  else if k = "location" then some (JVal.jstr "Gym")
  else if k = "binColor" then some (JVal.jstr "Blue")
  else if k = "geoLocation" then some JVal.jnull
  else if k = "distance" then some (JVal.jnum 42)
  else if k = "microProcessor_status" then some (JVal.jstr "ON")
  else if k = "sensor_status" then some (JVal.jstr "ON")
  else if k = "binLid_status" then some (JVal.jstr "CLOSE")
  else if k = "lastUpdated" then some (JVal.jstr "1/1/2024, 10:00:00 AM")
  else none

/-- C1: a distance update for an identity with no previously persisted
record answers not-found and performs no store write; in particular it
never creates a record for that identity. -/
theorem telemetry_notFound_noWrite (m : DistanceMsg) (now : String)
    (hv : distanceSchemaValid m = true) :
    sensorDistance none m now = { status := 404, write := none } := by
  simp [sensorDistance, hv]

theorem telemetry_notFound_noWrite_witness :
    distanceSchemaValid ⟨"distance", 1, 42, "Gym", "ON", "ON", "CLOSE"⟩ = true ∧
    sensorDistance none ⟨"distance", 1, 42, "Gym", "ON", "ON", "CLOSE"⟩ "t" =
      { status := 404, write := none } :=
  ⟨by decide, telemetry_notFound_noWrite ⟨"distance", 1, 42, "Gym", "ON", "ON", "CLOSE"⟩ "t" (by decide)⟩

/-- C2: for every field not carried by the incoming distance message and
other than lastUpdated, the merged record keeps the pre-update value of
that field. -/
theorem merge_preserves_absent_fields (r : JRecord) (m : DistanceMsg) (now : String)
    (k : String)
    (hk : k ∉ ["type", "id", "distance", "location", "microProcessor_status",
      "sensor_status", "binLid_status", "lastUpdated"]) :
    mergeDistance r m now k = r k := by
  simp only [List.mem_cons, List.not_mem_nil, or_false, not_or] at hk
  obtain ⟨h1, h2, h3, h4, h5, h6, h7, h8⟩ := hk
  simp [mergeDistance, h3, h5, h6, h7, h8]

theorem merge_preserves_absent_fields_witness :
    ("binColor" ∉ ["type", "id", "distance", "location", "microProcessor_status",
      "sensor_status", "binLid_status", "lastUpdated"]) ∧
    mergeDistance gymBin ⟨"distance", 1, 7, "Gym", "ON", "ON", "OPEN"⟩ "t2" "binColor" =
      gymBin "binColor" :=
  ⟨by decide,
   merge_preserves_absent_fields gymBin ⟨"distance", 1, 7, "Gym", "ON", "ON", "OPEN"⟩ "t2"
     "binColor" (by decide)⟩

/-- C6: applying the same distance update twice in immediate succession
writes, on the second application, a record that agrees with the record
written by a single application on every field other than lastUpdated. -/
theorem telemetry_idempotent (r : JRecord) (m : DistanceMsg) (t1 t2 : String)
    (hv : distanceSchemaValid m = true) (k : String) (hk : k ≠ "lastUpdated") :
    (sensorDistance (some (mergeDistance r m t1)) m t2).write =
      some (mergeDistance (mergeDistance r m t1) m t2) ∧
    mergeDistance (mergeDistance r m t1) m t2 k = mergeDistance r m t2 k := by
  constructor
  · simp [sensorDistance, hv]
  · simp only [mergeDistance]
    split_ifs <;> rfl

theorem telemetry_idempotent_witness :
    distanceSchemaValid ⟨"distance", 1, 7, "Gym", "ON", "ON", "OPEN"⟩ = true ∧
    ("binColor" : String) ≠ "lastUpdated" ∧
    mergeDistance (mergeDistance gymBin ⟨"distance", 1, 7, "Gym", "ON", "ON", "OPEN"⟩ "t1")
        ⟨"distance", 1, 7, "Gym", "ON", "ON", "OPEN"⟩ "t2" "binColor" =
      mergeDistance gymBin ⟨"distance", 1, 7, "Gym", "ON", "ON", "OPEN"⟩ "t2" "binColor" :=
  ⟨by decide, by decide,
   (telemetry_idempotent gymBin ⟨"distance", 1, 7, "Gym", "ON", "ON", "OPEN"⟩ "t1" "t2"
     (by decide) "binColor" (by decide)).2⟩

/-- C3 fails on the code: registering a fresh bin writes a record that has
no binStatus, filledBinPercentage, createdAt, lastMaintenance or binType
field at all, in either create-bin variant, so the record does not carry
binStatus inactive, filledBinPercentage 0, a createdAt time or an empty
lastMaintenance string. -/
theorem register_defaults_missing_fields :
    createBin none ⟨1, "Gym", "Blue", none⟩ "t" "binStatus" = none ∧
    createBin none ⟨1, "Gym", "Blue", none⟩ "t" "filledBinPercentage" = none ∧
    createBin none ⟨1, "Gym", "Blue", none⟩ "t" "createdAt" = none ∧
    createBin none ⟨1, "Gym", "Blue", none⟩ "t" "lastMaintenance" = none ∧
    createBin none ⟨1, "Gym", "Blue", none⟩ "t" "binType" = none ∧
    createBinWs none ⟨1, "Gym", "Blue", none⟩ "t" "binStatus" = none ∧
    createBinWs none ⟨1, "Gym", "Blue", none⟩ "t" "createdAt" = none := by
  decide

/-- C3 amended: a registration with no existing record writes exactly the
fields _id, location, binColor, geoLocation, distance,
microProcessor_status, sensor_status, binLid_status and lastUpdated: the
telemetry fields are defaulted to 0, OFF, OFF and CLOSE, lastUpdated is
the current formatted time, the identity fields are taken from the
payload, every other field is absent, and the WebSocket variant writes the
same record. -/
theorem register_fresh_record_fields (u : BinUpdate) (now : String) (k : String) :
    createBin none u now "distance" = some (JVal.jnum 0) ∧
    createBin none u now "microProcessor_status" = some (JVal.jstr "OFF") ∧
    createBin none u now "sensor_status" = some (JVal.jstr "OFF") ∧
    createBin none u now "binLid_status" = some (JVal.jstr "CLOSE") ∧
    createBin none u now "lastUpdated" = some (JVal.jstr now) ∧
    createBin none u now "_id" = some (JVal.jnum u.id) ∧
    createBin none u now "location" = some (JVal.jstr u.location) ∧
    createBin none u now "binColor" = some (JVal.jstr u.binColor) ∧
    (k ∉ ["_id", "location", "binColor", "geoLocation", "distance",
      "microProcessor_status", "sensor_status", "binLid_status", "lastUpdated"] →
      createBin none u now k = none) ∧
    createBinWs none u now = createBin none u now := by
  refine ⟨rfl, rfl, rfl, rfl, rfl, rfl, rfl, rfl, ?_, ?_⟩
  · intro hk
    simp only [List.mem_cons, List.not_mem_nil, or_false, not_or] at hk
    obtain ⟨h1, h2, h3, h4, h5, h6, h7, h8, h9⟩ := hk
    simp [createBin, h1, h2, h3, h4, h5, h6, h7, h8, h9]
  · funext k
    simp only [createBinWs, createBin, jsOr]

theorem register_fresh_record_fields_witness :
    ("binType" ∉ ["_id", "location", "binColor", "geoLocation", "distance",
      "microProcessor_status", "sensor_status", "binLid_status", "lastUpdated"]) ∧
    createBin none ⟨2, "Hall", "Green", some ""⟩ "t" "binType" = none ∧
    createBin none ⟨2, "Hall", "Green", some ""⟩ "t" "distance" = some (JVal.jnum 0) :=
  ⟨by decide,
   (register_fresh_record_fields ⟨2, "Hall", "Green", some ""⟩ "t" "binType").2.2.2.2.2.2.2.2.1
     (by decide),
   (register_fresh_record_fields ⟨2, "Hall", "Green", some ""⟩ "t" "binType").1⟩

/-- C7: registration defaults the telemetry fields only when no record
exists for the key; when a record with telemetry values is already
persisted, both create-bin variants carry its distance and its three
status values into the new record instead of the defaults. -/
theorem register_carries_existing_telemetry (r : JRecord) (u : BinUpdate) (now : String)
    (d : Int) (ms ss ls : String)
    (hd : r "distance" = some (JVal.jnum d))
    (hms : r "microProcessor_status" = some (JVal.jstr ms)) (hms2 : ms ≠ "")
    (hss : r "sensor_status" = some (JVal.jstr ss)) (hss2 : ss ≠ "")
    (hls : r "binLid_status" = some (JVal.jstr ls)) (hls2 : ls ≠ "") :
    (createBin none u now "distance" = some (JVal.jnum 0) ∧
      createBin none u now "microProcessor_status" = some (JVal.jstr "OFF") ∧
      createBin none u now "sensor_status" = some (JVal.jstr "OFF") ∧
      createBin none u now "binLid_status" = some (JVal.jstr "CLOSE")) ∧
    (createBin (some r) u now "distance" = some (JVal.jnum d) ∧
      createBin (some r) u now "microProcessor_status" = some (JVal.jstr ms) ∧
      createBin (some r) u now "sensor_status" = some (JVal.jstr ss) ∧
      createBin (some r) u now "binLid_status" = some (JVal.jstr ls)) ∧
    (createBinWs (some r) u now "distance" = some (JVal.jnum d) ∧
      createBinWs (some r) u now "microProcessor_status" = some (JVal.jstr ms) ∧
      createBinWs (some r) u now "sensor_status" = some (JVal.jstr ss) ∧
      createBinWs (some r) u now "binLid_status" = some (JVal.jstr ls)) := by
  refine ⟨⟨rfl, rfl, rfl, rfl⟩, ⟨?_, ?_, ?_, ?_⟩, ?_, ?_, ?_, ?_⟩
  · simp only [createBin, jsOr, hd, JVal.truthy]
    rcases eq_or_ne d 0 with h | h <;> simp [h]
  · simp [createBin, jsOr, hms, JVal.truthy, hms2]
  · simp [createBin, jsOr, hss, JVal.truthy, hss2]
  · simp [createBin, jsOr, hls, JVal.truthy, hls2]
  · simp [createBinWs, hd]
  · simp [createBinWs, hms]
  · simp [createBinWs, hss]
  · simp [createBinWs, hls]

theorem register_carries_existing_telemetry_witness :
    gymBin "distance" = some (JVal.jnum 42) ∧
    gymBin "microProcessor_status" = some (JVal.jstr "ON") ∧ ("ON" : String) ≠ "" ∧
    createBin (some gymBin) ⟨1, "Gym", "Red", none⟩ "t" "distance" = some (JVal.jnum 42) ∧
    createBin (some gymBin) ⟨1, "Gym", "Red", none⟩ "t" "microProcessor_status" =
      some (JVal.jstr "ON") :=
  ⟨by decide, by decide, by decide,
   (register_carries_existing_telemetry gymBin ⟨1, "Gym", "Red", none⟩ "t" 42 "ON" "ON" "CLOSE"
     (by decide) (by decide) (by decide) (by decide) (by decide) (by decide) (by decide)).2.1.1,
   (register_carries_existing_telemetry gymBin ⟨1, "Gym", "Red", none⟩ "t" 42 "ON" "ON" "CLOSE"
     (by decide) (by decide) (by decide) (by decide) (by decide) (by decide) (by decide)).2.1.2.1⟩

/-- C9: a registration over an existing record fully overwrites the
persisted record: every previously persisted field outside the nine keys
of the registration write is dropped by both variants, the identity and
classification fields are taken from the payload, and lastUpdated is kept
from the old record rather than refreshed. -/
theorem register_overwrites_record (r : JRecord) (u : BinUpdate) (now : String)
    (k : String) (t : String)
    (hk : k ∉ ["_id", "location", "binColor", "geoLocation", "distance",
      "microProcessor_status", "sensor_status", "binLid_status", "lastUpdated"])
    (ht : r "lastUpdated" = some (JVal.jstr t)) (ht2 : t ≠ "") :
    createBin (some r) u now k = none ∧
    createBinWs (some r) u now k = none ∧
    createBin (some r) u now "lastUpdated" = some (JVal.jstr t) ∧
    createBinWs (some r) u now "lastUpdated" = some (JVal.jstr t) ∧
    createBin (some r) u now "_id" = some (JVal.jnum u.id) ∧
    createBin (some r) u now "location" = some (JVal.jstr u.location) ∧
    createBin (some r) u now "binColor" = some (JVal.jstr u.binColor) := by
  simp only [List.mem_cons, List.not_mem_nil, or_false, not_or] at hk
  obtain ⟨h1, h2, h3, h4, h5, h6, h7, h8, h9⟩ := hk
  refine ⟨?_, ?_, ?_, ?_, rfl, rfl, rfl⟩
  · simp [createBin, h1, h2, h3, h4, h5, h6, h7, h8, h9]
  · simp [createBinWs, h1, h2, h3, h4, h5, h6, h7, h8, h9]
  · simp [createBin, jsOr, ht, JVal.truthy, ht2]
  · simp [createBinWs, jsOr, ht, JVal.truthy, ht2]

theorem register_overwrites_record_witness :
    ("binType" ∉ ["_id", "location", "binColor", "geoLocation", "distance",
      "microProcessor_status", "sensor_status", "binLid_status", "lastUpdated"]) ∧
    gymBin "lastUpdated" = some (JVal.jstr "1/1/2024, 10:00:00 AM") ∧
    createBin (some gymBin) ⟨1, "Gym", "Red", none⟩ "t9" "binType" = none ∧
    createBin (some gymBin) ⟨1, "Gym", "Red", none⟩ "t9" "lastUpdated" =
      some (JVal.jstr "1/1/2024, 10:00:00 AM") :=
  ⟨by decide, by decide,
   (register_overwrites_record gymBin ⟨1, "Gym", "Red", none⟩ "t9" "binType"
     "1/1/2024, 10:00:00 AM" (by decide) (by decide) (by decide)).1,
   (register_overwrites_record gymBin ⟨1, "Gym", "Red", none⟩ "t9" "binType"
     "1/1/2024, 10:00:00 AM" (by decide) (by decide) (by decide)).2.2.1⟩

/-- C10: create-bin validation accepts an empty geoLocation, and both
variants then persist null for geoLocation rather than the empty string;
a non-empty geoLocation is persisted verbatim. -/
theorem geoLocation_empty_null (e : Option JRecord) (u v : BinUpdate)
    (now : String) (s : String)
    (hu : u.geoLocation = some "") (hloc : u.location ≠ "") (hcol : u.binColor ≠ "")
    (hv : v.geoLocation = some s) (hs : s ≠ "") :
    binSchemaValid u = true ∧
    createBin e u now "geoLocation" = some JVal.jnull ∧
    createBinWs e u now "geoLocation" = some JVal.jnull ∧
    createBin e v now "geoLocation" = some (JVal.jstr s) ∧
    createBinWs e v now "geoLocation" = some (JVal.jstr s) := by
  refine ⟨?_, ?_, ?_, ?_, ?_⟩
  · simp [binSchemaValid, hloc, hcol]
  · simp [createBin, jsOr, hu, JVal.truthy]
  · simp [createBinWs, jsOr, hu, JVal.truthy]
  · simp [createBin, jsOr, hv, JVal.truthy, hs]
  · simp [createBinWs, jsOr, hv, JVal.truthy, hs]

theorem geoLocation_empty_null_witness :
    (⟨3, "Gym", "Blue", some ""⟩ : BinUpdate).geoLocation = some "" ∧
    binSchemaValid ⟨3, "Gym", "Blue", some ""⟩ = true ∧
    createBin none ⟨3, "Gym", "Blue", some ""⟩ "t" "geoLocation" = some JVal.jnull ∧
    createBin none ⟨3, "Gym", "Blue", some "12.9,80.2"⟩ "t" "geoLocation" =
      some (JVal.jstr "12.9,80.2") :=
  ⟨by decide,
   (geoLocation_empty_null none ⟨3, "Gym", "Blue", some ""⟩ ⟨3, "Gym", "Blue", some "12.9,80.2"⟩
     "t" "12.9,80.2" (by decide) (by decide) (by decide) (by decide) (by decide)).1,
   (geoLocation_empty_null none ⟨3, "Gym", "Blue", some ""⟩ ⟨3, "Gym", "Blue", some "12.9,80.2"⟩
     "t" "12.9,80.2" (by decide) (by decide) (by decide) (by decide) (by decide)).2.1,
   (geoLocation_empty_null none ⟨3, "Gym", "Blue", some ""⟩ ⟨3, "Gym", "Blue", some "12.9,80.2"⟩
     "t" "12.9,80.2" (by decide) (by decide) (by decide) (by decide) (by decide)).2.2.2.1⟩

/-- C8 fails on the code: a negative distance passes the distance schema,
is accepted with status 200 and is persisted as written, both by the
distance handler and by the standalone sensor-data endpoint, so the
persisted distance is not always non-negative. -/
theorem negative_distance_accepted :
    distanceSchemaValid ⟨"distance", 1, -5, "Gym", "ON", "ON", "OPEN"⟩ = true ∧
    (sensorDistance (some gymBin) ⟨"distance", 1, -5, "Gym", "ON", "ON", "OPEN"⟩ "t").status
      = 200 ∧
    writtenField (sensorDistance (some gymBin) ⟨"distance", 1, -5, "Gym", "ON", "ON", "OPEN"⟩ "t")
      "distance" = some (JVal.jnum (-5)) ∧
    (sensorData (some (JVal.jnum (-5)))).status = 200 ∧
    writtenField (sensorData (some (JVal.jnum (-5)))) "distance" = some (JVal.jnum (-5)) ∧
    (-5 : Int) < 0 := by
  decide

/-- C8 amended: for every accepted telemetry or sensor-data update the
distance written to the store equals the incoming distance verbatim; no
non-negativity bound is enforced, so the persisted distance is
non-negative exactly when the incoming distance is. -/
theorem distance_written_verbatim (r : JRecord) (m : DistanceMsg) (now : String)
    (hv : distanceSchemaValid m = true) (n : Int) :
    writtenField (sensorDistance (some r) m now) "distance" = some (JVal.jnum m.distance) ∧
    writtenField (sensorData (some (JVal.jnum n))) "distance" = some (JVal.jnum n) := by
  refine ⟨?_, rfl⟩
  simp [writtenField, sensorDistance, hv, mergeDistance]

theorem distance_written_verbatim_witness :
    distanceSchemaValid ⟨"distance", 1, 17, "Gym", "ON", "ON", "OPEN"⟩ = true ∧
    writtenField (sensorDistance (some gymBin) ⟨"distance", 1, 17, "Gym", "ON", "ON", "OPEN"⟩ "t")
      "distance" = some (JVal.jnum 17) ∧
    writtenField (sensorData (some (JVal.jnum 17))) "distance" = some (JVal.jnum 17) :=
  ⟨by decide,
   (distance_written_verbatim gymBin ⟨"distance", 1, 17, "Gym", "ON", "ON", "OPEN"⟩ "t"
     (by decide) 17).1,
   (distance_written_verbatim gymBin ⟨"distance", 1, 17, "Gym", "ON", "ON", "OPEN"⟩ "t"
     (by decide) 17).2⟩

/-- C4: with the 20 second threshold, the offline sweep on an online
device whose gap since the most recent sighting on either channel exceeds
the threshold marks it offline and issues exactly one patch with both
statuses OFF; when the gap does not exceed the threshold it leaves the
device online and issues no patch. -/
theorem offline_sweep_exact (e : LivenessEntry) (now : Nat) (ho : e.isOnline = true) :
    (now - max e.lastHeartbeatAt e.lastTelemetryAt > offlineThreshold →
      sweepEntry e now = ({ e with isOnline := false },
        [{ microProcessor_status := "OFF", sensor_status := "OFF", lastUpdated := now }])) ∧
    (¬ (now - max e.lastHeartbeatAt e.lastTelemetryAt > offlineThreshold) →
      sweepEntry e now = (e, []) ∧ e.isOnline = true) := by
  constructor
  · intro h
    simp [sweepEntry, ho, h]
  · intro h
    exact ⟨by simp [sweepEntry, h], ho⟩

theorem offline_sweep_exact_witness :
    sweepEntry ⟨0, 0, true⟩ 21 =
      ({ lastHeartbeatAt := 0, lastTelemetryAt := 0, isOnline := false },
        [{ microProcessor_status := "OFF", sensor_status := "OFF", lastUpdated := 21 }]) ∧
    sweepEntry ⟨0, 0, true⟩ 19 = (⟨0, 0, true⟩, []) :=
  ⟨(offline_sweep_exact ⟨0, 0, true⟩ 21 rfl).1 (by decide),
   ((offline_sweep_exact ⟨0, 0, true⟩ 19 rfl).2 (by decide)).1⟩

/-- C5: the cleanup sweep removes every tracker entry whose most recent
sighting on either channel is older than the cleanup interval, whatever
its online flag, and performs no store write at all. -/
theorem cleanup_evicts_silent (tracker : List (String × LivenessEntry))
    (now : Nat) (key : String) (e : LivenessEntry)
    (h : now - max e.lastHeartbeatAt e.lastTelemetryAt > cleanupInterval) :
    (key, e) ∉ (cleanupSweep tracker now).1 ∧ (cleanupSweep tracker now).2 = [] := by
  constructor
  · intro hmem
    have hp := (List.mem_filter.mp hmem).2
    have hle : now - max e.lastHeartbeatAt e.lastTelemetryAt ≤ cleanupInterval :=
      of_decide_eq_true hp
    omega
  · rfl

theorem cleanup_evicts_silent_witness :
    ("Gym-1", (⟨0, 0, false⟩ : LivenessEntry)) ∉
      (cleanupSweep [("Gym-1", ⟨0, 0, false⟩)] 4000).1 ∧
    (cleanupSweep [("Gym-1", ⟨0, 0, false⟩)] 4000).2 = [] :=
  cleanup_evicts_silent [("Gym-1", ⟨0, 0, false⟩)] 4000 "Gym-1" ⟨0, 0, false⟩ (by decide)

end TrashBins
